import Mathlib

/-!
Verification development for the Bar-Blinker WLED button controller
(`bar-blinker.py`, with the RGBW variant `RGBWBlinker.py`).

The Python sources are shallowly embedded as executable Lean functions:

* Python floats (durations, delays) are modelled as exact rationals `ℚ`;
  integer configuration values that the web form can set are `Int`
  (Python ints), others are `Nat`.
* Network I/O is modelled by explicit environment inputs: every HTTP
  attempt consumes one element of a response stream
  (`HttpResult` / `InfoResult`), so fallible requests are total functions
  of the stream.
* Each loop of the source (retry loop, reconnect loop, blink loops) is
  embedded as structural recursion; unbounded loops take an explicit
  fuel/tick budget, and wall-clock comparisons are discretised to the
  loop's own sleep granularity (the source polls at a fixed cadence).
* Shared mutable flags written by other threads (`wled.flashing`, read
  cooperatively by the blink loops) are modelled as per-iteration
  observations supplied by the environment, and a per-iteration `raises`
  observation models an exception thrown inside the loop body.
-/

/-! ## Configuration (`class Config`)

Only the attributes consumed by the embedded operations are modelled.
Float-valued attributes are rationals, form-updatable ints are `Int`.
-/

structure Config where
  BUTTON_PIN : Nat
  WLED_IP : String
  LONG_PRESS_THRESHOLD : ℚ
  SHORT_FLASH_DURATION : ℚ
  FLASH_INTERVAL : ℚ
  FLASH_BRIGHTNESS : Int
  LOG_FILE : String
  MAX_RETRIES : Int
  RETRY_DELAY : ℚ
  RECONNECT_DELAY : ℚ
  TRANSITION_TIME : ℚ
  REQUEST_TIMEOUT : ℚ
  DEFAULT_MODE : String
  DEFAULT_EFFECT_INDEX : Int
  WLED_USERNAME : Option String
  WLED_PASSWORD : Option String
  DEFAULT_EFFECT_SPEED : Int
  DEFAULT_EFFECT_INTENSITY : Int
  MAX_FAILED_ATTEMPTS : Nat
deriving DecidableEq, Repr

/-- The class-attribute defaults of `Config` in `bar-blinker.py`. -/
def cfgDefault : Config :=
  { BUTTON_PIN := 18
  , WLED_IP := "192.168.1.15"
  , LONG_PRESS_THRESHOLD := 3
  , SHORT_FLASH_DURATION := 5
  , FLASH_INTERVAL := mkRat 1 2
  , FLASH_BRIGHTNESS := 255
  , LOG_FILE := "/home/tech/wled_button.log"
  , MAX_RETRIES := 3
  , RETRY_DELAY := 1
  , RECONNECT_DELAY := 5
  , TRANSITION_TIME := 0
  , REQUEST_TIMEOUT := 5
  , DEFAULT_MODE := "white"
  , DEFAULT_EFFECT_INDEX := 162
  , WLED_USERNAME := none
  , WLED_PASSWORD := none
  , DEFAULT_EFFECT_SPEED := 128
  , DEFAULT_EFFECT_INTENSITY := 128
  , MAX_FAILED_ATTEMPTS := 5 }

/-- Python `int()` truncation (toward zero) on a rational, used for
`int(Config.TRANSITION_TIME * 1000)`. -/
def ratTrunc (q : ℚ) : Int :=
  if q < 0 then ⌈q⌉ else ⌊q⌋

/-! ## System health (`class SystemHealth`) -/

inductive HealthStatus where
  | initializing
  | healthy
  | degraded
  | critical
deriving DecidableEq, Repr

structure SystemHealth where
  last_successful_connection : Option Unit
  failed_attempts : Nat
  button_press_count : Nat
  last_error : Option String
  status : HealthStatus
deriving DecidableEq, Repr

/-- The `SystemHealth.__init__` state. -/
def healthInit : SystemHealth :=
  { last_successful_connection := none
  , failed_attempts := 0
  , button_press_count := 0
  , last_error := none
  , status := .initializing }

/-- `SystemHealth.record_success`: resets the failure count, marks a
successful connection, sets status `healthy`, clears the last error. -/
def recordSuccess (h : SystemHealth) : SystemHealth :=
  { h with last_successful_connection := some ()
         , failed_attempts := 0
         , status := .healthy
         , last_error := none }

/-- `SystemHealth.record_failure`: increments the failure count, records
the error, and sets status `critical` when the count has reached
`Config.MAX_FAILED_ATTEMPTS`, otherwise `degraded`. -/
def recordFailure (cfg : Config) (err : String) (h : SystemHealth) : SystemHealth :=
  { h with failed_attempts := h.failed_attempts + 1
         , last_error := some err
         , status :=
             if cfg.MAX_FAILED_ATTEMPTS ≤ h.failed_attempts + 1 then .critical
             else .degraded }

/-- `SystemHealth.record_button_press`. -/
def recordButtonPress (h : SystemHealth) : SystemHealth :=
  { h with button_press_count := h.button_press_count + 1 }

/-- `k` consecutive `record_failure` calls (the `k`-th call gets error
message `errs (k-1)`). -/
def recordFailures (cfg : Config) (errs : Nat → String) (h : SystemHealth) : Nat → SystemHealth
  | 0 => h
  | k + 1 => recordFailure cfg (errs k) (recordFailures cfg errs h k)

/-! ## Reconnect backoff (`WLEDController.wait_for_connection` delays)

`delay = min(Config.RECONNECT_DELAY * (2 ** (attempt - 1)), max_delay)`
with `max_delay = 60`; the slept amount is
`delay + random.random() * (delay * 0.1)` where `random.random() ∈ [0,1)`
is supplied here as the parameter `t`. -/

def reconnectDelay (cfg : Config) (attempt : Nat) : ℚ :=
  min (cfg.RECONNECT_DELAY * 2 ^ (attempt - 1)) 60

def sleptWait (cfg : Config) (attempt : Nat) (t : ℚ) : ℚ :=
  reconnectDelay cfg attempt + t * (reconnectDelay cfg attempt * (1/10))

/-! ## Device payloads and HTTP environment -/

/-- One WLED segment object of a `/json/state` payload. -/
structure Seg where
  id : Nat
  col : List (List Nat)
  fx : Nat
  sx : Nat
  ix : Nat
deriving DecidableEq, Repr

/-- A full visual-state payload POSTed to `/json/state` by `_send_state`
(`onFlag` models the JSON key `on`, a reserved word in Lean). -/
structure StatePayload where
  onFlag : Bool
  bri : Int
  transition : Int
  seg : List Seg
deriving DecidableEq, Repr

/-- The distinct payload shape POSTed by `apply_effect` (no `col` list;
`fx`, `sx`, `ix` come from the configuration). -/
structure EffectPayload where
  onFlag : Bool
  bri : Int
  transition : Int
  fx : Int
  sx : Int
  ix : Int
deriving DecidableEq, Repr

/-- Outcome of one `POST` attempt: HTTP 200, a non-success status code, or
a `requests.exceptions.RequestException` (transport error). -/
inductive HttpResult where
  | ok
  | httpErr (code : Nat)
  | netErr (msg : String)
deriving DecidableEq, Repr

def isNetErr : HttpResult → Bool
  | .netErr _ => true
  | _ => false

/-- Outcome of the `GET /json/info` request inside `get_info`: parsed JSON
(with the optional fields the code reads), a non-200 status, a transport
error, or an unparseable body (`ValueError`). -/
inductive InfoResult where
  | ok (ledCount : Option Nat) (devName : Option String) (devVer : Option String)
  | httpErr (code : Nat)
  | netErr (msg : String)
  | decodeErr (msg : String)
deriving DecidableEq, Repr

def isOkInfo : InfoResult → Bool
  | .ok _ _ _ => true
  | _ => false

/-- The error string `f"HTTP {status_code}"` recorded on protocol errors. -/
def httpErrMsg (code : Nat) : String := "HTTP " ++ toString code

/-! ## Device client state (`class WLEDController`) -/

structure WledState where
  led_count : Nat
  devName : String
  version : String
  is_connected : Bool
  last_state : Option StatePayload
  flashing : Bool
  health : SystemHealth
deriving DecidableEq, Repr

/-- The `WLEDController.__init__` state (network identity and the session
object are not part of the modelled state). -/
def initialState : WledState :=
  { led_count := 0
  , devName := "Unknown"
  , version := "Unknown"
  , is_connected := false
  , last_state := none
  , flashing := false
  , health := healthInit }

/-! ## `_send_state`: retrying state POST -/

/-- Result of `_send_state` (and of the operations that funnel through
it): the returned boolean, the updated client state, and the list of
POSTed payloads — one entry per HTTP attempt made. -/
structure SendResult where
  ok : Bool
  state : WledState
  posts : List StatePayload
deriving Repr

/-- The retry loop body of `_send_state`: `n` remaining attempts, the
next attempt consuming `rs attempt`.  HTTP 200 stores the payload as
`_last_state` and records success; a non-success status records a
failure; a transport exception records a failure and clears
`is_connected`.  The inter-attempt `time.sleep` has no state effect. -/
def sendStateAux (cfg : Config) (payload : StatePayload) (rs : Nat → HttpResult) :
    Nat → Nat → WledState → SendResult
  | 0, _, w => ⟨false, w, []⟩
  | n + 1, attempt, w =>
    match rs attempt with
    | .ok =>
        ⟨true,
         { w with last_state := some payload, health := recordSuccess w.health },
         [payload]⟩
    | .httpErr c =>
        let w1 := { w with health := recordFailure cfg (httpErrMsg c) w.health }
        let r := sendStateAux cfg payload rs n (attempt + 1) w1
        ⟨r.ok, r.state, payload :: r.posts⟩
    | .netErr e =>
        let w1 := { w with health := recordFailure cfg e w.health, is_connected := false }
        let r := sendStateAux cfg payload rs n (attempt + 1) w1
        ⟨r.ok, r.state, payload :: r.posts⟩

/-- `WLEDController._send_state`: `for attempt in range(Config.MAX_RETRIES)`
(an empty loop when `MAX_RETRIES ≤ 0`), returning `False` when every
attempt failed. -/
def sendState (cfg : Config) (payload : StatePayload) (rs : Nat → HttpResult)
    (w : WledState) : SendResult :=
  sendStateAux cfg payload rs cfg.MAX_RETRIES.toNat 0 w

/-- The solid-colour payload built by `set_color` in `bar-blinker.py`
(RGB, 3-element colour list). -/
def colorPayload (cfg : Config) (r g b : Nat) (brightness : Int) : StatePayload :=
  { onFlag := true
  , bri := brightness
  , transition := ratTrunc (cfg.TRANSITION_TIME * 1000)
  , seg := [{ id := 0, col := [[r, g, b]], fx := 0, sx := 0, ix := 0 }] }

/-- `WLEDController.set_color` (`bar-blinker.py`): refuses immediately when
not connected or when `led_count == 0`, otherwise funnels through
`_send_state`. -/
def set_color (cfg : Config) (r g b : Nat) (brightness : Int) (rs : Nat → HttpResult)
    (w : WledState) : SendResult :=
  if !w.is_connected || w.led_count == 0 then ⟨false, w, []⟩
  else sendState cfg (colorPayload cfg r g b brightness) rs w

/-- The RGBW solid-colour payload built by `set_color` in `RGBWBlinker.py`
(4-element colour list with a dedicated white channel). -/
def colorPayloadRgbw (cfg : Config) (r g b wch : Nat) (brightness : Int) : StatePayload :=
  { onFlag := true
  , bri := brightness
  , transition := ratTrunc (cfg.TRANSITION_TIME * 1000)
  , seg := [{ id := 0, col := [[r, g, b, wch]], fx := 0, sx := 0, ix := 0 }] }

/-- `set_color` of the RGBW variant (`RGBWBlinker.py`): identical guard and
`_send_state` funnel, different colour payload. -/
def set_color_rgbw (cfg : Config) (r g b wch : Nat) (brightness : Int)
    (rs : Nat → HttpResult) (w : WledState) : SendResult :=
  if !w.is_connected || w.led_count == 0 then ⟨false, w, []⟩
  else sendState cfg (colorPayloadRgbw cfg r g b wch brightness) rs w

/-! ## `apply_effect`: one-shot effect POST -/

structure EffectResult where
  ok : Bool
  state : WledState
  posts : List EffectPayload
deriving Repr

/-- `WLEDController.apply_effect`: builds the effect payload and POSTs it
once (no retry loop).  HTTP 200 records success; a non-success status
records a failure (leaving `is_connected` untouched); a transport
exception records a failure and clears `is_connected`.  The payload never
reaches `_last_state`. -/
def apply_effect (cfg : Config) (effect_index : Int) (resp : HttpResult)
    (w : WledState) : EffectResult :=
  let payload : EffectPayload :=
    { onFlag := true
    , bri := cfg.FLASH_BRIGHTNESS
    , transition := ratTrunc (cfg.TRANSITION_TIME * 1000)
    , fx := effect_index
    , sx := cfg.DEFAULT_EFFECT_SPEED
    , ix := cfg.DEFAULT_EFFECT_INTENSITY }
  match resp with
  | .ok => ⟨true, { w with health := recordSuccess w.health }, [payload]⟩
  | .httpErr c =>
      ⟨false, { w with health := recordFailure cfg (httpErrMsg c) w.health }, [payload]⟩
  | .netErr e =>
      ⟨false,
       { w with health := recordFailure cfg e w.health, is_connected := false },
       [payload]⟩

/-! ## `get_info`, `initialize`, `wait_for_connection`, `restore_last_state`,
`auto_recover` -/

/-- `WLEDController.get_info`: returns the parsed info JSON on HTTP 200
(recording success), `None` on any failure (recording the failure).  The
optional fields mirror `info.get('leds', {}).get('count', 0)` etc. -/
def get_info (cfg : Config) (res : InfoResult) (w : WledState) :
    Option (Option Nat × Option String × Option String) × WledState :=
  match res with
  | .ok n nm vr => (some (n, nm, vr), { w with health := recordSuccess w.health })
  | .httpErr c => (none, { w with health := recordFailure cfg (httpErrMsg c) w.health })
  | .netErr e => (none, { w with health := recordFailure cfg e w.health })
  | .decodeErr e => (none, { w with health := recordFailure cfg e w.health })

/-- `WLEDController.initialize` (renamed: `initialize` is reserved in
Lean): fetches info; on success stores LED count / name / version, sets
`is_connected`, records success; on failure clears `is_connected`. -/
def init_device (cfg : Config) (res : InfoResult) (w : WledState) : Bool × WledState :=
  let g := get_info cfg res w
  match g.1 with
  | some info =>
      (true,
       { g.2 with led_count := info.1.getD 0
                , devName := info.2.1.getD "Unknown"
                , version := info.2.2.getD "Unknown"
                , is_connected := true
                , health := recordSuccess g.2.health })
  | none => (false, { g.2 with is_connected := false })

structure WaitResult where
  ok : Bool
  state : WledState
  attempts : Nat
deriving Repr

/-- The loop of `wait_for_connection`: while not connected, try
`initialize()`; attempt `k` consumes `s (idx + k)`.  `fuel` bounds the
modelled run (fuel exhaustion stands for the — in reality unbounded —
loop still running); `attempts` counts `initialize()` calls. -/
def waitForConnectionAux (cfg : Config) (s : Nat → InfoResult) :
    Nat → Nat → WledState → WaitResult
  | 0, _, w => ⟨false, w, 0⟩
  | n + 1, idx, w =>
    if w.is_connected then ⟨true, w, 0⟩
    else
      let r := init_device cfg (s idx) w
      if r.1 then ⟨true, r.2, 1⟩
      else
        let rest := waitForConnectionAux cfg s n (idx + 1) r.2
        ⟨rest.ok, rest.state, rest.attempts + 1⟩

/-- `WLEDController.wait_for_connection` (the backoff sleeps between
attempts carry no state; their lengths are `sleptWait`). -/
def wait_for_connection (cfg : Config) (s : Nat → InfoResult) (fuel : Nat)
    (w : WledState) : WaitResult :=
  waitForConnectionAux cfg s fuel 0 w

/-- `WLEDController.restore_last_state`: re-sends `_last_state` through
`_send_state` when one exists, otherwise returns `False` without any
request. -/
def restore_last_state (cfg : Config) (rs : Nat → HttpResult) (w : WledState) :
    SendResult :=
  match w.last_state with
  | some st => sendState cfg st rs w
  | none => ⟨false, w, []⟩

structure RecoverResult where
  ok : Bool
  state : WledState
  posts : List StatePayload
  infoAttempts : Nat
deriving Repr

/-- `WLEDController.auto_recover`: a no-op returning `False` when already
connected; otherwise blocks on `wait_for_connection` and then attempts
`restore_last_state`, returning `True` only when both succeed. -/
def auto_recover (cfg : Config) (s : Nat → InfoResult) (fuel : Nat)
    (rs : Nat → HttpResult) (w : WledState) : RecoverResult :=
  if w.is_connected then ⟨false, w, [], 0⟩
  else
    let wr := wait_for_connection cfg s fuel w
    if wr.ok then
      let rr := restore_last_state cfg rs wr.state
      ⟨rr.ok, rr.state, rr.posts, wr.attempts⟩
    else ⟨false, wr.state, [], wr.attempts⟩

/-! ## Web configuration update (`update_config` route)

A form field is `none` when absent from the POST, `some none` when
present but unparseable by `float()`/`int()` (raising `ValueError`), and
`some (some v)` when it parses to `v`.  `inet_aton` validity of an IP
string is supplied as the oracle `iv`. -/

structure Form where
  WLED_IP : Option String
  LONG_PRESS_THRESHOLD : Option (Option ℚ)
  SHORT_FLASH_DURATION : Option (Option ℚ)
  FLASH_INTERVAL : Option (Option ℚ)
  FLASH_BRIGHTNESS : Option (Option Int)
  MAX_RETRIES : Option (Option Int)
  RETRY_DELAY : Option (Option ℚ)
  RECONNECT_DELAY : Option (Option ℚ)
  TRANSITION_TIME : Option (Option ℚ)
  REQUEST_TIMEOUT : Option (Option ℚ)
  DEFAULT_EFFECT_SPEED : Option (Option Int)
  DEFAULT_EFFECT_INTENSITY : Option (Option Int)
  LOG_FILE : Option String
  WLED_USERNAME : Option String
  WLED_PASSWORD : Option String
  mode : Option String
  effect_index : Option (Option Int)

/-- The empty form (no field submitted). -/
def emptyForm : Form :=
  { WLED_IP := none, LONG_PRESS_THRESHOLD := none, SHORT_FLASH_DURATION := none
  , FLASH_INTERVAL := none, FLASH_BRIGHTNESS := none, MAX_RETRIES := none
  , RETRY_DELAY := none, RECONNECT_DELAY := none, TRANSITION_TIME := none
  , REQUEST_TIMEOUT := none, DEFAULT_EFFECT_SPEED := none
  , DEFAULT_EFFECT_INTENSITY := none, LOG_FILE := none, WLED_USERNAME := none
  , WLED_PASSWORD := none, mode := none, effect_index := none }

/-- The inner `update_numeric` helper of `update_config` for float fields:
returns `(validation ok, new field value)`.  When the key is absent the
field keeps its current value and counts as valid; a parse failure or an
out-of-range value invalidates without touching the field; otherwise the
submitted value is stored immediately (`setattr` happens inside
validation). -/
def updNumQ (f : Option (Option ℚ)) (minv maxv : Option ℚ) (cur : ℚ) : Bool × ℚ :=
  match f with
  | none => (true, cur)
  | some none => (false, cur)
  | some (some v) =>
      if (minv.elim false (fun m => decide (v < m)))
         || (maxv.elim false (fun m => decide (m < v))) then (false, cur)
      else (true, v)

/-- `update_numeric` for `is_int=True` fields. -/
def updNumI (f : Option (Option Int)) (minv maxv : Option Int) (cur : Int) : Bool × Int :=
  match f with
  | none => (true, cur)
  | some none => (false, cur)
  | some (some v) =>
      if (minv.elim false (fun m => decide (v < m)))
         || (maxv.elim false (fun m => decide (m < v))) then (false, cur)
      else (true, v)

/-- The `validations = [update_numeric(...), ...]` list of `update_config`:
every entry is evaluated (mutating the configuration field by field) and
the conjunction of the validation booleans is `all(validations)`.  Each
entry touches a distinct attribute, so the sequential `setattr`s are
expressed as one simultaneous record update. -/
def applyNumerics (form : Form) (c : Config) : Bool × Config :=
  let r1 := updNumQ form.LONG_PRESS_THRESHOLD (some (mkRat 1 10)) none c.LONG_PRESS_THRESHOLD
  let r2 := updNumQ form.SHORT_FLASH_DURATION (some (mkRat 1 10)) none c.SHORT_FLASH_DURATION
  let r3 := updNumQ form.FLASH_INTERVAL (some (mkRat 1 10)) none c.FLASH_INTERVAL
  let r4 := updNumI form.FLASH_BRIGHTNESS (some 0) (some 255) c.FLASH_BRIGHTNESS
  let r5 := updNumI form.MAX_RETRIES (some 1) none c.MAX_RETRIES
  let r6 := updNumQ form.RETRY_DELAY (some (mkRat 1 10)) none c.RETRY_DELAY
  let r7 := updNumQ form.RECONNECT_DELAY (some (mkRat 1 10)) none c.RECONNECT_DELAY
  let r8 := updNumQ form.TRANSITION_TIME (some 0) none c.TRANSITION_TIME
  let r9 := updNumQ form.REQUEST_TIMEOUT (some (mkRat 1 10)) none c.REQUEST_TIMEOUT
  let r10 := updNumI form.DEFAULT_EFFECT_SPEED (some 0) (some 255) c.DEFAULT_EFFECT_SPEED
  let r11 := updNumI form.DEFAULT_EFFECT_INTENSITY (some 0) (some 255)
    c.DEFAULT_EFFECT_INTENSITY
  (r1.1 && r2.1 && r3.1 && r4.1 && r5.1 && r6.1 && r7.1 && r8.1 && r9.1
     && r10.1 && r11.1,
   { c with LONG_PRESS_THRESHOLD := r1.2, SHORT_FLASH_DURATION := r2.2
          , FLASH_INTERVAL := r3.2, FLASH_BRIGHTNESS := r4.2, MAX_RETRIES := r5.2
          , RETRY_DELAY := r6.2, RECONNECT_DELAY := r7.2, TRANSITION_TIME := r8.2
          , REQUEST_TIMEOUT := r9.2, DEFAULT_EFFECT_SPEED := r10.2
          , DEFAULT_EFFECT_INTENSITY := r11.2 })

/-- Whether the numeric validations of `update_config` all pass for this
form (`updNum*` validity is independent of the current field values). -/
def numericsValid (form : Form) : Bool :=
  (updNumQ form.LONG_PRESS_THRESHOLD (some (mkRat 1 10)) none 0).1
    && (updNumQ form.SHORT_FLASH_DURATION (some (mkRat 1 10)) none 0).1
    && (updNumQ form.FLASH_INTERVAL (some (mkRat 1 10)) none 0).1
    && (updNumI form.FLASH_BRIGHTNESS (some 0) (some 255) 0).1
    && (updNumI form.MAX_RETRIES (some 1) none 0).1
    && (updNumQ form.RETRY_DELAY (some (mkRat 1 10)) none 0).1
    && (updNumQ form.RECONNECT_DELAY (some (mkRat 1 10)) none 0).1
    && (updNumQ form.TRANSITION_TIME (some 0) none 0).1
    && (updNumQ form.REQUEST_TIMEOUT (some (mkRat 1 10)) none 0).1
    && (updNumI form.DEFAULT_EFFECT_SPEED (some 0) (some 255) 0).1
    && (updNumI form.DEFAULT_EFFECT_INTENSITY (some 0) (some 255) 0).1

inductive UpdateOutcome where
  | badRequest (msg : String)
  | redirect
deriving DecidableEq, Repr

structure UpdateResult where
  config : Config
  outcome : UpdateOutcome
  iniWritten : Bool
  appliedMode : Option String
deriving Repr

/-- The `update_config` Flask route: IP check (mutating `WLED_IP`), the
numeric validation list, string fields, mode selection, optional effect
index, then `write_to_ini` and immediate application of the selected
mode.  `appliedMode` records which default mode was pushed to the device
at the end (`none` on the error paths). -/
def update_config (iv : String → Bool) (form : Form) (cfg : Config) : UpdateResult :=
  let new_ip := form.WLED_IP.getD cfg.WLED_IP
  if !iv new_ip then ⟨cfg, .badRequest "Invalid IP address", false, none⟩
  else
    let cfg1 := { cfg with WLED_IP := new_ip }
    let rn := applyNumerics form cfg1
    if !rn.1 then ⟨rn.2, .badRequest "Invalid numeric parameters", false, none⟩
    else
      let cfgS :=
        { rn.2 with
            LOG_FILE := form.LOG_FILE.getD rn.2.LOG_FILE
          , WLED_USERNAME :=
              match form.WLED_USERNAME with
              | some s => some s
              | none => rn.2.WLED_USERNAME
          , WLED_PASSWORD :=
              match form.WLED_PASSWORD with
              | some s => some s
              | none => rn.2.WLED_PASSWORD }
      let selected := form.mode.getD cfgS.DEFAULT_MODE
      if selected ≠ "white" ∧ selected ≠ "effect" then
        ⟨cfgS, .badRequest "Invalid mode selected", false, none⟩
      else
        let cfgM := { cfgS with DEFAULT_MODE := selected }
        if selected = "effect" then
          match form.effect_index with
          | some none => ⟨cfgM, .badRequest "Invalid effect index", false, none⟩
          | some (some v) =>
              let cfgE := { cfgM with DEFAULT_EFFECT_INDEX := v }
              ⟨cfgE, .redirect, true, some selected⟩
          | none => ⟨cfgM, .redirect, true, some selected⟩
        else ⟨cfgM, .redirect, true, some selected⟩

/-! ## Blink sequences

The three blink routines (`blink_green_for_30s`, `blink_red_alert`,
`simulate_long_press`) are embedded as trace-producing loops over
discrete ticks.  One tick is one loop iteration (the loop's own
`time.sleep` granularity: `FLASH_INTERVAL/2` for the first two, `0.01 s`
for the simulated long press), so the wall-clock window checks become
tick-count checks.  Per tick the environment supplies: the GPIO read
(`pressed`, i.e. `GPIO.input(pin) == 0`), the observed value of the
shared `wled.flashing` flag (which other threads may clear via
`stop_flashing` at any time), the outcome of this iteration's
`set_color` POST, and whether an exception is raised in the body
(entering the `except` handler).

The trace alphabet abstracts one level: `revert` is a call of
`revert_to_user_default` (a white push or an effect application,
depending on `DEFAULT_MODE`), and `recover` is a call of
`wled.auto_recover()` after a failed push — neither of which internally
issues a further revert-to-default. -/

inductive BlinkAct where
  | pushRed
  | pushBlue
  | pushOff
  | recover
  | revert
deriving DecidableEq, Repr

/-- Number of `revert_to_user_default` calls in a trace. -/
def revertCount : List BlinkAct → Nat
  | [] => 0
  | a :: tr => (if a = .revert then 1 else 0) + revertCount tr

/-- The final action of a trace (the terminal device action). -/
def lastAct : List BlinkAct → Option BlinkAct
  | [] => none
  | [a] => some a
  | _ :: b :: tr => lastAct (b :: tr)

/-- One tick's environment observations for a blink loop. -/
structure Tick where
  pressed : Bool
  flashing : Bool
  pushOk : Bool
  raises : Bool
deriving DecidableEq, Repr

/-- The inner `while GPIO.input(BUTTON_PIN) == 0 and wled.flashing` red
loop of `blink_green_for_30s` (entered when a new long press is detected
during the blue sequence).  Returns the actions and whether the body
raised. -/
def redHoldLoop (env : Nat → Tick) : Nat → Nat → Bool → List BlinkAct × Bool
  | 0, _, _ => ([], false)
  | n + 1, i, fs =>
    if (env i).pressed && (env i).flashing then
      if (env i).raises then ([], true)
      else
        let a : BlinkAct := if fs then .pushRed else .pushOff
        let rc : List BlinkAct := if (env i).pushOk then [] else [.recover]
        let r := redHoldLoop env n (i + 1) (!fs)
        (a :: rc ++ r.1, r.2)
    else ([], false)

/-- How the main loop of `blink_green_for_30s` ended: `returned` is the
early `return` after the in-press red loop (which has already issued its
revert), `raised` propagates an exception to the handler, and
`normal lpInit` is the loop condition turning false with the final value
of `long_press_initiated`. -/
inductive GreenExit where
  | returned
  | raised
  | normal (lpInit : Bool)
deriving DecidableEq, Repr

/-- The `elif (time.time() - press_start_time) >= Config.LONG_PRESS_THRESHOLD`
test of `blink_green_for_30s` (in ticks), guarded by the button being
pressed; `false` when no press start is recorded. -/
def pressedLong (thr i : Nat) (ps : Option Nat) (pressed : Bool) : Bool :=
  pressed && ps.elim false (fun p => decide (thr ≤ i - p))

/-- The `press_start_time` update of one iteration of
`blink_green_for_30s`: set on the first pressed tick, kept while held,
reset to `None` when released. -/
def nextPressStart (pressed : Bool) (i : Nat) (ps : Option Nat) : Option Nat :=
  if pressed then some (ps.getD i) else none

/-- The main loop of `blink_green_for_30s`, one tick per iteration
(duration window `d` ticks left, current tick `i`, `ps` the tick at which
the in-loop press began (`press_start_time`), `fs` = `flash_state`,
`lp` = `long_press_initiated`).  `thr` is `LONG_PRESS_THRESHOLD` in
ticks; `inFuel` bounds the inner red loop (its environment eventually
releases the button or clears the flag). -/
def blinkGreenLoop (thr inFuel : Nat) (env : Nat → Tick) :
    Nat → Nat → Option Nat → Bool → Bool → List BlinkAct × GreenExit
  | 0, _, _, _, lp => ([], .normal lp)
  | d + 1, i, ps, fs, lp =>
    if !(env i).flashing then ([], .normal lp)
    else if (env i).raises then ([], .raised)
    else if pressedLong thr i ps (env i).pressed then
      let r := redHoldLoop env inFuel (i + 1) fs
      if r.2 then (r.1, .raised) else (r.1 ++ [.revert], .returned)
    else
      let a : BlinkAct := if fs then .pushBlue else .pushOff
      let rc : List BlinkAct := if (env i).pushOk then [] else [.recover]
      let r := blinkGreenLoop thr inFuel env d (i + 1)
        (nextPressStart (env i).pressed i ps) (!fs) lp
      (a :: rc ++ r.1, r.2)

/-- The loop of `blink_red_alert` (duration window of `d` ticks,
`flash_state` starting `True`). -/
def blinkRedAlertLoop (env : Nat → Tick) : Nat → Nat → Bool → List BlinkAct × Bool
  | 0, _, _ => ([], false)
  | d + 1, i, fs =>
    if !(env i).flashing then ([], false)
    else if (env i).raises then ([], true)
    else
      let a : BlinkAct := if fs then .pushRed else .pushOff
      let rc : List BlinkAct := if (env i).pushOk then [] else [.recover]
      let r := blinkRedAlertLoop env d (i + 1) (!fs)
      (a :: rc ++ r.1, r.2)

/-- `blink_red_alert`: blink red for up to `dur` ticks, then revert; the
`except` handler also reverts, and the `finally` (clearing `flashing`)
performs no device action. -/
def blink_red_alert (dur : Nat) (env : Nat → Tick) : List BlinkAct :=
  (blinkRedAlertLoop env dur 0 true).1 ++ [.revert]

/-- `blink_green_for_30s`: blink blue for up to `dur` ticks with in-loop
long-press detection.  The in-press red path reverts and returns inside
the loop; the normal exit reverts and — if `long_press_initiated` is
still set — falls through to `blink_red_alert`; the `except` handler
reverts. -/
def blink_green_for_30s (dur thr inFuel : Nat) (env : Nat → Tick) : List BlinkAct :=
  let r := blinkGreenLoop thr inFuel env dur 0 none true false
  match r.2 with
  | .returned => r.1
  | .raised => r.1 ++ [.revert]
  | .normal lp => r.1 ++ [.revert] ++ (if lp then blink_red_alert dur env else [])

/-- The loop of `simulate_long_press`, one tick per `time.sleep(0.01)`:
`r` ticks remain until the simulated hold reaches
`LONG_PRESS_THRESHOLD`, `lb` is `last_blink_time` (in ticks), `bs` is
`blink_state`, and `ivl` is `FLASH_INTERVAL/2` in ticks.  Each iteration
first re-checks the loop condition (`blinking_red and wled.flashing`),
then the hold-threshold test (revert and break), then the timed red/off
toggle.  When the observed `flashing` flag is `false` the loop falls
through to the `finally` block with no further device action. -/
def simLongLoop (ivl : Nat) (env : Nat → Tick) : Nat → Nat → Nat → Bool → List BlinkAct
  | 0, i, _, _ =>
    if !(env i).flashing then [] else [.revert]
  | r + 1, i, lb, bs =>
    if !(env i).flashing then []
    else if (env i).raises then [.revert]
    else if ivl ≤ i - lb then
      let a : BlinkAct := if bs then .pushOff else .pushRed
      let rc : List BlinkAct := if (env i).pushOk then [] else [.recover]
      a :: rc ++ simLongLoop ivl env r (i + 1) i (!bs)
    else simLongLoop ivl env r (i + 1) lb bs

/-- `simulate_long_press`: after `stop_flashing()` and `flashing = True`,
blink red until the simulated hold reaches the threshold (`thr` ticks),
then revert.  (`GPIO.input` is not read on this path.) -/
def simulate_long_press (thr ivl : Nat) (env : Nat → Tick) : List BlinkAct :=
  simLongLoop ivl env thr 0 0 false

/-! ## Client operation alphabet

A run of the modelled `WLEDController` operations, used to state
state-evolution invariants (`led_count`, `_last_state`). -/

inductive ClientOp where
  | opInit (res : InfoResult)
  | opSetColor (r g b : Nat) (bri : Int) (rs : Nat → HttpResult)
  | opSetColorRgbw (r g b wch : Nat) (bri : Int) (rs : Nat → HttpResult)
  | opApplyEffect (idx : Int) (resp : HttpResult)
  | opRestoreLast (rs : Nat → HttpResult)
  | opAutoRecover (s : Nat → InfoResult) (fuel : Nat) (rs : Nat → HttpResult)
  | opStopFlashing
  | opSetFlashing (b : Bool)
  | opRecordPress

/-- State effect of one client operation. -/
def runOp (cfg : Config) : ClientOp → WledState → WledState
  | .opInit res, w => (init_device cfg res w).2
  | .opSetColor r g b bri rs, w => (set_color cfg r g b bri rs w).state
  | .opSetColorRgbw r g b wch bri rs, w => (set_color_rgbw cfg r g b wch bri rs w).state
  | .opApplyEffect idx resp, w => (apply_effect cfg idx resp w).state
  | .opRestoreLast rs, w => (restore_last_state cfg rs w).state
  | .opAutoRecover s fuel rs, w => (auto_recover cfg s fuel rs w).state
  | .opStopFlashing, w => { w with flashing := false }
  | .opSetFlashing b, w => { w with flashing := b }
  | .opRecordPress, w => { w with health := recordButtonPress w.health }

def runOps (cfg : Config) : List ClientOp → WledState → WledState
  | [], w => w
  | op :: ops, w => runOps cfg ops (runOp cfg op w)

/-- Whether this operation performs a successful `initialize()` when run
from state `w` (`initialize` succeeds exactly when its info request
parses; inside `auto_recover` the reconnect loop succeeds exactly when
some of its first `fuel` info requests parses). -/
def opHasSuccInit (w : WledState) : ClientOp → Bool
  | .opInit res => isOkInfo res
  | .opAutoRecover s fuel _ =>
      !w.is_connected && (List.range fuel).any (fun i => isOkInfo (s i))
  | _ => false

/-- No operation of the run performs a successful `initialize()`. -/
def noSuccInitRun (cfg : Config) : List ClientOp → WledState → Bool
  | [], _ => true
  | op :: ops, w => !opHasSuccInit w op && noSuccInitRun cfg ops (runOp cfg op w)

/-! ## Concrete sample data -/

/-- A response stream failing every attempt with HTTP 500. -/
def rsAllHttp : Nat → HttpResult := fun _ => .httpErr 500

/-- A response stream failing every attempt with a transport error. -/
def rsAllNet : Nat → HttpResult := fun _ => .netErr "connection refused"

/-- A response stream answering HTTP 200 to every attempt. -/
def rsAllOk : Nat → HttpResult := fun _ => .ok

/-- An info stream that never parses (device unreachable). -/
def infoAllNet : Nat → InfoResult := fun _ => .netErr "connection refused"

/-- A connected client with 30 LEDs (after a successful `initialize`). -/
def wConnected : WledState :=
  { initialState with is_connected := true, led_count := 30 }

/-- The blue payload `set_color(0, 0, 255, 255)` builds under the default
configuration. -/
def pBlueSample : StatePayload := colorPayload cfgDefault 0 0 255 255

/-- A connected client that has successfully pushed `pBlueSample`. -/
def wWithLast : WledState := { wConnected with last_state := some pBlueSample }

/-- A disconnected client that had pushed `pBlueSample` before the drop. -/
def wDropped : WledState := { wWithLast with is_connected := false }

/-- Blink environment: the shared `flashing` flag is observed cleared from
the very first loop check (another thread pre-empted the sequence between
`flashing = True` and the first iteration). -/
def envStopped : Nat → Tick := fun _ => ⟨false, false, true, false⟩

/-- Blink environment: `flashing` is observed `true` for the first 30
ticks and `false` afterwards (pre-emption 0.3 s into a simulated long
press), pushes succeed, no exception. -/
def envPreempted : Nat → Tick :=
  fun j => ⟨false, decide (j < 30), true, false⟩

/-- Blink environment: button never pressed again, `flashing` never
cleared, every push succeeds, no exception. -/
def envSteady : Nat → Tick := fun _ => ⟨false, true, true, false⟩

/-- An `inet_aton` oracle accepting every string. -/
def oracleTrue : String → Bool := fun _ => true

/-- A form submitting a valid `LONG_PRESS_THRESHOLD` (2.0) together with
an unparseable `SHORT_FLASH_DURATION` (e.g. the string `"abc"`). -/
def formBadNumeric : Form :=
  { emptyForm with
      LONG_PRESS_THRESHOLD := some (some 2)
    , SHORT_FLASH_DURATION := some none }

/-! ## Trace helper lemmas -/

theorem revertCount_append (l1 l2 : List BlinkAct) :
    revertCount (l1 ++ l2) = revertCount l1 + revertCount l2 := by
  induction l1 with
  | nil => simp [revertCount]
  | cons a l ih => simp [revertCount, ih]; omega

theorem lastAct_append_one (l : List BlinkAct) (a : BlinkAct) :
    lastAct (l ++ [a]) = some a := by
  induction l with
  | nil => rfl
  | cons x l ih =>
    cases l with
    | nil => rfl
    | cons y l' => simpa [lastAct] using ih

theorem lastAct_cons_of_ne_nil (x : BlinkAct) (l : List BlinkAct) (h : l ≠ []) :
    lastAct (x :: l) = lastAct l := by
  cases l with
  | nil => exact absurd rfl h
  | cons y l' => rfl

theorem ne_nil_of_lastAct {l : List BlinkAct} {a : BlinkAct}
    (h : lastAct l = some a) : l ≠ [] := by
  intro hl; subst hl; simp [lastAct] at h

/-! ## `_send_state` lemmas -/

theorem sendStateAux_fail (cfg : Config) (payload : StatePayload) (rs : Nat → HttpResult) :
    ∀ n attempt w, (∀ i, i < n → rs (attempt + i) ≠ .ok) →
      (sendStateAux cfg payload rs n attempt w).ok = false ∧
      (sendStateAux cfg payload rs n attempt w).posts.length = n := by
  intro n
  induction n with
  | zero => intro attempt w _; exact ⟨rfl, rfl⟩
  | succ n ih =>
    intro attempt w h
    have h0 : rs attempt ≠ .ok := by simpa using h 0 (Nat.succ_pos n)
    have hsh : ∀ i, i < n → rs (attempt + 1 + i) ≠ .ok := by
      intro i hi
      have heq : attempt + 1 + i = attempt + (i + 1) := by omega
      rw [heq]; exact h (i + 1) (by omega)
    cases hr : rs attempt with
    | ok => exact absurd hr h0
    | httpErr c =>
      have hrec := ih (attempt + 1) { w with health := recordFailure cfg (httpErrMsg c) w.health } hsh
      simp [sendStateAux, hr, hrec.1, hrec.2]
    | netErr e =>
      have hrec := ih (attempt + 1) { w with health := recordFailure cfg e w.health, is_connected := false } hsh
      simp [sendStateAux, hr, hrec.1, hrec.2]

theorem sendStateAux_conn_absorb (cfg : Config) (payload : StatePayload)
    (rs : Nat → HttpResult) :
    ∀ n attempt w, (∀ i, i < n → rs (attempt + i) ≠ .ok) →
      w.is_connected = false →
      (sendStateAux cfg payload rs n attempt w).state.is_connected = false := by
  intro n
  induction n with
  | zero => intro attempt w _ hw; exact hw
  | succ n ih =>
    intro attempt w h hw
    have h0 : rs attempt ≠ .ok := by simpa using h 0 (Nat.succ_pos n)
    have hsh : ∀ i, i < n → rs (attempt + 1 + i) ≠ .ok := by
      intro i hi
      have heq : attempt + 1 + i = attempt + (i + 1) := by omega
      rw [heq]; exact h (i + 1) (by omega)
    cases hr : rs attempt with
    | ok => exact absurd hr h0
    | httpErr c =>
      simpa [sendStateAux, hr] using ih (attempt + 1) { w with health := recordFailure cfg (httpErrMsg c) w.health } hsh (by simpa using hw)
    | netErr e =>
      simpa [sendStateAux, hr] using ih (attempt + 1) { w with health := recordFailure cfg e w.health, is_connected := false } hsh (by simp)

theorem sendStateAux_conn_noNet (cfg : Config) (payload : StatePayload)
    (rs : Nat → HttpResult) :
    ∀ n attempt w, (∀ i, i < n → rs (attempt + i) ≠ .ok) →
      (∀ i, i < n → isNetErr (rs (attempt + i)) = false) →
      (sendStateAux cfg payload rs n attempt w).state.is_connected = w.is_connected := by
  intro n
  induction n with
  | zero => intro attempt w _ _; rfl
  | succ n ih =>
    intro attempt w h hn
    have h0 : rs attempt ≠ .ok := by simpa using h 0 (Nat.succ_pos n)
    have hn0 : isNetErr (rs attempt) = false := by simpa using hn 0 (Nat.succ_pos n)
    have hsh : ∀ i, i < n → rs (attempt + 1 + i) ≠ .ok := by
      intro i hi
      have heq : attempt + 1 + i = attempt + (i + 1) := by omega
      rw [heq]; exact h (i + 1) (by omega)
    have hnsh : ∀ i, i < n → isNetErr (rs (attempt + 1 + i)) = false := by
      intro i hi
      have heq : attempt + 1 + i = attempt + (i + 1) := by omega
      rw [heq]; exact hn (i + 1) (by omega)
    cases hr : rs attempt with
    | ok => exact absurd hr h0
    | httpErr c =>
      simpa [sendStateAux, hr] using ih (attempt + 1) { w with health := recordFailure cfg (httpErrMsg c) w.health } hsh hnsh
    | netErr e => rw [hr] at hn0; simp [isNetErr] at hn0

theorem sendStateAux_conn_net (cfg : Config) (payload : StatePayload)
    (rs : Nat → HttpResult) :
    ∀ n attempt w, (∀ i, i < n → rs (attempt + i) ≠ .ok) →
      (∃ i, i < n ∧ isNetErr (rs (attempt + i)) = true) →
      (sendStateAux cfg payload rs n attempt w).state.is_connected = false := by
  intro n
  induction n with
  | zero => rintro attempt w _ ⟨i, hi, _⟩; omega
  | succ n ih =>
    intro attempt w h hex
    have h0 : rs attempt ≠ .ok := by simpa using h 0 (Nat.succ_pos n)
    have hsh : ∀ i, i < n → rs (attempt + 1 + i) ≠ .ok := by
      intro i hi
      have heq : attempt + 1 + i = attempt + (i + 1) := by omega
      rw [heq]; exact h (i + 1) (by omega)
    cases hr : rs attempt with
    | ok => exact absurd hr h0
    | httpErr c =>
      obtain ⟨i, hi, hnet⟩ := hex
      have hi0 : i ≠ 0 := by
        intro h0'; subst h0'; simp [hr, isNetErr] at hnet
      have hex' : ∃ j, j < n ∧ isNetErr (rs (attempt + 1 + j)) = true := by
        refine ⟨i - 1, by omega, ?_⟩
        have heq : attempt + 1 + (i - 1) = attempt + i := by omega
        rw [heq]; exact hnet
      simpa [sendStateAux, hr] using ih (attempt + 1) { w with health := recordFailure cfg (httpErrMsg c) w.health } hsh hex'
    | netErr e =>
      simpa [sendStateAux, hr] using
        sendStateAux_conn_absorb cfg payload rs n (attempt + 1) { w with health := recordFailure cfg e w.health, is_connected := false } hsh (by simp)

theorem sendStateAux_posts_all (cfg : Config) (payload : StatePayload)
    (rs : Nat → HttpResult) :
    ∀ n attempt w q, q ∈ (sendStateAux cfg payload rs n attempt w).posts →
      q = payload := by
  intro n
  induction n with
  | zero => intro attempt w q hq; simp [sendStateAux] at hq
  | succ n ih =>
    intro attempt w q hq
    cases hr : rs attempt with
    | ok =>
      simp [sendStateAux, hr] at hq; exact hq
    | httpErr c =>
      simp [sendStateAux, hr] at hq
      rcases hq with hq | hq
      · exact hq
      · exact ih (attempt + 1) _ q hq
    | netErr e =>
      simp [sendStateAux, hr] at hq
      rcases hq with hq | hq
      · exact hq
      · exact ih (attempt + 1) _ q hq

theorem sendStateAux_last_state (cfg : Config) (payload : StatePayload)
    (rs : Nat → HttpResult) :
    ∀ n attempt w,
      (sendStateAux cfg payload rs n attempt w).state.last_state = w.last_state ∨
      ((sendStateAux cfg payload rs n attempt w).ok = true ∧
        (sendStateAux cfg payload rs n attempt w).state.last_state = some payload) := by
  intro n
  induction n with
  | zero => intro attempt w; exact Or.inl rfl
  | succ n ih =>
    intro attempt w
    cases hr : rs attempt with
    | ok => right; constructor <;> simp [sendStateAux, hr]
    | httpErr c => simpa [sendStateAux, hr] using ih (attempt + 1) { w with health := recordFailure cfg (httpErrMsg c) w.health }
    | netErr e => simpa [sendStateAux, hr] using ih (attempt + 1) { w with health := recordFailure cfg e w.health, is_connected := false }

theorem sendStateAux_led (cfg : Config) (payload : StatePayload)
    (rs : Nat → HttpResult) :
    ∀ n attempt w,
      (sendStateAux cfg payload rs n attempt w).state.led_count = w.led_count := by
  intro n
  induction n with
  | zero => intro attempt w; rfl
  | succ n ih =>
    intro attempt w
    cases hr : rs attempt with
    | ok => simp [sendStateAux, hr]
    | httpErr c => simpa [sendStateAux, hr] using ih (attempt + 1) { w with health := recordFailure cfg (httpErrMsg c) w.health }
    | netErr e => simpa [sendStateAux, hr] using ih (attempt + 1) { w with health := recordFailure cfg e w.health, is_connected := false }

theorem sendStateAux_ok_indep (cfg : Config) (payload : StatePayload)
    (rs : Nat → HttpResult) :
    ∀ n attempt w w',
      (sendStateAux cfg payload rs n attempt w).ok =
      (sendStateAux cfg payload rs n attempt w').ok := by
  intro n
  induction n with
  | zero => intro attempt w w'; rfl
  | succ n ih =>
    intro attempt w w'
    cases hr : rs attempt with
    | ok => simp [sendStateAux, hr]
    | httpErr c =>
      simpa [sendStateAux, hr] using ih (attempt + 1)
        { w with health := recordFailure cfg (httpErrMsg c) w.health }
        { w' with health := recordFailure cfg (httpErrMsg c) w'.health }
    | netErr e =>
      simpa [sendStateAux, hr] using ih (attempt + 1)
        { w with health := recordFailure cfg e w.health, is_connected := false }
        { w' with health := recordFailure cfg e w'.health, is_connected := false }

/-! ## `initialize` / `wait_for_connection` / guard lemmas -/

theorem init_device_last (cfg : Config) (res : InfoResult) (w : WledState) :
    (init_device cfg res w).2.last_state = w.last_state := by
  cases res <;> rfl

theorem init_device_fail (cfg : Config) (res : InfoResult) (w : WledState)
    (h : isOkInfo res = false) :
    (init_device cfg res w).1 = false ∧
    (init_device cfg res w).2.is_connected = false ∧
    (init_device cfg res w).2.led_count = w.led_count := by
  cases res with
  | ok n nm vr => simp [isOkInfo] at h
  | httpErr c => exact ⟨rfl, rfl, rfl⟩
  | netErr e => exact ⟨rfl, rfl, rfl⟩
  | decodeErr e => exact ⟨rfl, rfl, rfl⟩

theorem waitAux_last_state (cfg : Config) (s : Nat → InfoResult) :
    ∀ n idx w,
      (waitForConnectionAux cfg s n idx w).state.last_state = w.last_state := by
  intro n
  induction n with
  | zero => intro idx w; rfl
  | succ n ih =>
    intro idx w
    by_cases hc : w.is_connected
    · simp [waitForConnectionAux, hc]
    · simp only [waitForConnectionAux, hc, if_false, Bool.false_eq_true]
      by_cases h1 : (init_device cfg (s idx) w).1
      · simp [h1, init_device_last]
      · simp only [h1, if_false, Bool.false_eq_true]
        rw [ih (idx + 1) _]
        exact init_device_last cfg (s idx) w

theorem waitAux_fail (cfg : Config) (s : Nat → InfoResult) :
    ∀ n idx w, w.is_connected = false →
      (∀ i, i < n → isOkInfo (s (idx + i)) = false) →
      (waitForConnectionAux cfg s n idx w).ok = false ∧
      (waitForConnectionAux cfg s n idx w).state.is_connected = false ∧
      (waitForConnectionAux cfg s n idx w).state.led_count = w.led_count := by
  intro n
  induction n with
  | zero => intro idx w hw _; exact ⟨rfl, hw, rfl⟩
  | succ n ih =>
    intro idx w hw h
    have h0 : isOkInfo (s idx) = false := by simpa using h 0 (Nat.succ_pos n)
    have hf := init_device_fail cfg (s idx) w h0
    have hsh : ∀ i, i < n → isOkInfo (s (idx + 1 + i)) = false := by
      intro i hi
      have heq : idx + 1 + i = idx + (i + 1) := by omega
      rw [heq]; exact h (i + 1) (by omega)
    have hrec := ih (idx + 1) (init_device cfg (s idx) w).2 hf.2.1 hsh
    refine ⟨?_, ?_, ?_⟩ <;>
      simp [waitForConnectionAux, hw, hf.1, hrec.1, hrec.2.1, hrec.2.2, hf.2.2]

theorem set_color_guard (cfg : Config) (r g b : Nat) (bri : Int)
    (rs : Nat → HttpResult) (w : WledState)
    (h : w.is_connected = false ∨ w.led_count = 0) :
    set_color cfg r g b bri rs w = ⟨false, w, []⟩ := by
  rcases h with h | h <;> simp [set_color, h]

theorem set_color_rgbw_guard (cfg : Config) (r g b wch : Nat) (bri : Int)
    (rs : Nat → HttpResult) (w : WledState)
    (h : w.is_connected = false ∨ w.led_count = 0) :
    set_color_rgbw cfg r g b wch bri rs w = ⟨false, w, []⟩ := by
  rcases h with h | h <;> simp [set_color_rgbw, h]

theorem restore_some (cfg : Config) (rs : Nat → HttpResult) (w : WledState)
    (st : StatePayload) (h : w.last_state = some st) :
    restore_last_state cfg rs w = sendState cfg st rs w := by
  simp only [restore_last_state, h]

theorem restore_none (cfg : Config) (rs : Nat → HttpResult) (w : WledState)
    (h : w.last_state = none) :
    restore_last_state cfg rs w = ⟨false, w, []⟩ := by
  simp only [restore_last_state, h]

/-! ## Operation-level invariants -/

theorem runOp_led (cfg : Config) (op : ClientOp) (w : WledState)
    (h : opHasSuccInit w op = false) :
    (runOp cfg op w).led_count = w.led_count := by
  cases op with
  | opInit res =>
    simp only [opHasSuccInit] at h
    exact (init_device_fail cfg res w h).2.2
  | opSetColor r g b bri rs =>
    simp only [runOp, set_color]
    split
    · rfl
    · exact sendStateAux_led cfg _ rs _ 0 w
  | opSetColorRgbw r g b wch bri rs =>
    simp only [runOp, set_color_rgbw]
    split
    · rfl
    · exact sendStateAux_led cfg _ rs _ 0 w
  | opApplyEffect idx resp =>
    cases resp <;> rfl
  | opRestoreLast rs =>
    simp only [runOp, restore_last_state]
    cases hl : w.last_state with
    | some st => exact sendStateAux_led cfg st rs _ 0 w
    | none => rfl
  | opAutoRecover s fuel rs =>
    simp only [opHasSuccInit] at h
    by_cases hc : w.is_connected
    · simp [runOp, auto_recover, hc]
    · have hw : w.is_connected = false := by simpa using hc
      have hany : (List.range fuel).any (fun i => isOkInfo (s i)) = false := by
        rcases Bool.and_eq_false_iff.mp h with h' | h'
        · rw [hw] at h'; simp at h'
        · exact h'
      have hall : ∀ i, i < fuel → isOkInfo (s (0 + i)) = false := by
        intro i hi
        have := List.any_eq_false.mp hany i (List.mem_range.mpr hi)
        simpa using this
      have hwait := waitAux_fail cfg s fuel 0 w hw hall
      simp [runOp, auto_recover, hw, wait_for_connection, hwait.1, hwait.2.2]
  | opStopFlashing => rfl
  | opSetFlashing b => rfl
  | opRecordPress => rfl

theorem runOps_led (cfg : Config) :
    ∀ ops w, noSuccInitRun cfg ops w = true →
      (runOps cfg ops w).led_count = w.led_count := by
  intro ops
  induction ops with
  | nil => intro w _; rfl
  | cons op ops ih =>
    intro w h
    simp only [noSuccInitRun, Bool.and_eq_true, Bool.not_eq_true'] at h
    rw [runOps, ih (runOp cfg op w) h.2, runOp_led cfg op w h.1]

theorem runOp_last_isSome (cfg : Config) (op : ClientOp) (w : WledState)
    (h : w.last_state.isSome = true) :
    (runOp cfg op w).last_state.isSome = true := by
  cases op with
  | opInit res => rw [runOp, init_device_last]; exact h
  | opSetColor r g b bri rs =>
    simp only [runOp, set_color]
    split
    · exact h
    · simp only [sendState]
      rcases sendStateAux_last_state cfg _ rs cfg.MAX_RETRIES.toNat 0 w with h' | h'
      · rw [h']; exact h
      · rw [h'.2]; rfl
  | opSetColorRgbw r g b wch bri rs =>
    simp only [runOp, set_color_rgbw]
    split
    · exact h
    · simp only [sendState]
      rcases sendStateAux_last_state cfg _ rs cfg.MAX_RETRIES.toNat 0 w with h' | h'
      · rw [h']; exact h
      · rw [h'.2]; rfl
  | opApplyEffect idx resp =>
    cases resp <;> exact h
  | opRestoreLast rs =>
    simp only [runOp, restore_last_state]
    cases hl : w.last_state with
    | some st =>
      simp only [sendState]
      rcases sendStateAux_last_state cfg st rs cfg.MAX_RETRIES.toNat 0 w with h' | h'
      · rw [h']; exact h
      · rw [h'.2]; rfl
    | none => rw [hl] at h; simp at h
  | opAutoRecover s fuel rs =>
    by_cases hc : w.is_connected
    · simp only [runOp, auto_recover, hc, if_true]; exact h
    · have hw : w.is_connected = false := by simpa using hc
      simp only [runOp, auto_recover, hw, Bool.false_eq_true, if_false]
      have hws : (wait_for_connection cfg s fuel w).state.last_state = w.last_state :=
        waitAux_last_state cfg s fuel 0 w
      by_cases hok : (wait_for_connection cfg s fuel w).ok
      · simp only [hok, if_true]
        simp only [restore_last_state]
        cases hl : (wait_for_connection cfg s fuel w).state.last_state with
        | some st =>
          simp only [sendState]
          rcases sendStateAux_last_state cfg st rs cfg.MAX_RETRIES.toNat 0
              (wait_for_connection cfg s fuel w).state with h' | h'
          · rw [h', hl]; rfl
          · rw [h'.2]; rfl
        | none => rw [hws] at hl; rw [hl] at h; simp at h
      · simp only [hok, Bool.false_eq_true, if_false]
        rw [hws]; exact h
  | opStopFlashing => exact h
  | opSetFlashing b => exact h
  | opRecordPress => exact h

/-! ## Blink-loop lemmas -/

theorem lastAct_prefix (pre post : List BlinkAct) (h : post ≠ []) :
    lastAct (pre ++ post) = lastAct post := by
  induction pre with
  | nil => rfl
  | cons x l ih =>
    rw [List.cons_append, lastAct_cons_of_ne_nil x (l ++ post) (by simp [h]), ih]

theorem revertCount_greenStep (fs ok : Bool) (l : List BlinkAct) :
    revertCount ((if fs then BlinkAct.pushBlue else BlinkAct.pushOff) ::
      (if ok then ([] : List BlinkAct) else [BlinkAct.recover]) ++ l) =
    revertCount l := by
  cases fs <;> cases ok <;> simp [revertCount, revertCount_append]

theorem revertCount_simStep (bs ok : Bool) (l : List BlinkAct) :
    revertCount ((if bs then BlinkAct.pushOff else BlinkAct.pushRed) ::
      (if ok then ([] : List BlinkAct) else [BlinkAct.recover]) ++ l) =
    revertCount l := by
  cases bs <;> cases ok <;> simp [revertCount, revertCount_append]

theorem lastAct_step (a : BlinkAct) (rc l : List BlinkAct) (h : l ≠ []) :
    lastAct (a :: rc ++ l) = lastAct l :=
  lastAct_prefix (a :: rc) l h

theorem redHoldLoop_count (env : Nat → Tick) :
    ∀ n i fs, revertCount (redHoldLoop env n i fs).1 = 0 := by
  intro n
  induction n with
  | zero => intro i fs; rfl
  | succ n ih =>
    intro i fs
    by_cases hc : ((env i).pressed && (env i).flashing) = true
    · by_cases hra : (env i).raises = true
      · simp [redHoldLoop, hc, hra, revertCount]
      · by_cases hfs : fs <;> by_cases hok : (env i).pushOk <;>
          simp [redHoldLoop, hc, hra, hfs, hok, revertCount, revertCount_append, ih]
    · simp [redHoldLoop, hc, revertCount]

theorem blinkRedAlertLoop_count (env : Nat → Tick) :
    ∀ d i fs, revertCount (blinkRedAlertLoop env d i fs).1 = 0 := by
  intro d
  induction d with
  | zero => intro i fs; rfl
  | succ d ih =>
    intro i fs
    by_cases hfl : (env i).flashing = true
    · by_cases hra : (env i).raises = true
      · simp [blinkRedAlertLoop, hfl, hra, revertCount]
      · by_cases hfs : fs <;> by_cases hok : (env i).pushOk <;>
          simp [blinkRedAlertLoop, hfl, hra, hfs, hok, revertCount,
            revertCount_append, ih]
    · have hfl' : (env i).flashing = false := by simpa using hfl
      simp [blinkRedAlertLoop, hfl', revertCount]

theorem blinkGreenLoop_spec (thr inFuel : Nat) (env : Nat → Tick) :
    ∀ d i ps fs lp,
      ((blinkGreenLoop thr inFuel env d i ps fs lp).2 = .returned →
        revertCount (blinkGreenLoop thr inFuel env d i ps fs lp).1 = 1 ∧
        lastAct (blinkGreenLoop thr inFuel env d i ps fs lp).1 = some .revert) ∧
      ((blinkGreenLoop thr inFuel env d i ps fs lp).2 = .raised →
        revertCount (blinkGreenLoop thr inFuel env d i ps fs lp).1 = 0) ∧
      (∀ b, (blinkGreenLoop thr inFuel env d i ps fs lp).2 = .normal b →
        b = lp ∧ revertCount (blinkGreenLoop thr inFuel env d i ps fs lp).1 = 0) := by
  intro d
  induction d with
  | zero =>
    intro i ps fs lp
    refine ⟨?_, ?_, ?_⟩
    · intro h; simp [blinkGreenLoop] at h
    · intro h; simp [blinkGreenLoop] at h
    · intro b h
      simp only [blinkGreenLoop, GreenExit.normal.injEq] at h
      exact ⟨h.symm, rfl⟩
  | succ d ih =>
    intro i ps fs lp
    by_cases hfl : (env i).flashing = true
    · by_cases hra : (env i).raises = true
      · refine ⟨?_, ?_, ?_⟩
        · intro h; simp [blinkGreenLoop, hfl, hra] at h
        · intro _; simp [blinkGreenLoop, hfl, hra, revertCount]
        · intro b h; simp [blinkGreenLoop, hfl, hra] at h
      · by_cases hLong : pressedLong thr i ps (env i).pressed = true
        · by_cases hrr : (redHoldLoop env inFuel (i + 1) fs).2 = true
          · refine ⟨?_, ?_, ?_⟩
            · intro h; simp [blinkGreenLoop, hfl, hra, hLong, hrr] at h
            · intro _
              simp [blinkGreenLoop, hfl, hra, hLong, hrr, redHoldLoop_count]
            · intro b h; simp [blinkGreenLoop, hfl, hra, hLong, hrr] at h
          · refine ⟨?_, ?_, ?_⟩
            · intro _
              constructor
              · simp [blinkGreenLoop, hfl, hra, hLong, hrr, revertCount_append,
                  redHoldLoop_count, revertCount]
              · simp only [blinkGreenLoop, hfl, hra, hLong, hrr]
                simp only [Bool.not_true, Bool.false_eq_true, if_false, if_true]
                exact lastAct_append_one _ _
            · intro h; simp [blinkGreenLoop, hfl, hra, hLong, hrr] at h
            · intro b h; simp [blinkGreenLoop, hfl, hra, hLong, hrr] at h
        · have key := ih (i + 1) (nextPressStart (env i).pressed i ps) (!fs) lp
          have hstep : blinkGreenLoop thr inFuel env (d + 1) i ps fs lp =
              ((if fs then BlinkAct.pushBlue else BlinkAct.pushOff) ::
                (if (env i).pushOk then ([] : List BlinkAct) else [BlinkAct.recover]) ++
                (blinkGreenLoop thr inFuel env d (i + 1)
                  (nextPressStart (env i).pressed i ps) (!fs) lp).1,
               (blinkGreenLoop thr inFuel env d (i + 1)
                  (nextPressStart (env i).pressed i ps) (!fs) lp).2) := by
            simp [blinkGreenLoop, hfl, hra, hLong]
          have hstep1 : (blinkGreenLoop thr inFuel env (d + 1) i ps fs lp).1 =
              (if fs then BlinkAct.pushBlue else BlinkAct.pushOff) ::
                (if (env i).pushOk then ([] : List BlinkAct) else [BlinkAct.recover]) ++
                (blinkGreenLoop thr inFuel env d (i + 1)
                  (nextPressStart (env i).pressed i ps) (!fs) lp).1 := by
            rw [hstep]
          have hstep2 : (blinkGreenLoop thr inFuel env (d + 1) i ps fs lp).2 =
              (blinkGreenLoop thr inFuel env d (i + 1)
                (nextPressStart (env i).pressed i ps) (!fs) lp).2 := by
            rw [hstep]
          refine ⟨?_, ?_, ?_⟩
          · intro h
            rw [hstep2] at h
            have hk := key.1 h
            have hne := ne_nil_of_lastAct hk.2
            constructor
            · rw [hstep1, revertCount_greenStep, hk.1]
            · rw [hstep1, lastAct_step _ _ _ hne]
              exact hk.2
          · intro h
            rw [hstep2] at h
            have hk := key.2.1 h
            rw [hstep1, revertCount_greenStep, hk]
          · intro b h
            rw [hstep2] at h
            have hk := key.2.2 b h
            exact ⟨hk.1, by rw [hstep1, revertCount_greenStep, hk.2]⟩
    · have hfl2 : (env i).flashing = false := by simpa using hfl
      refine ⟨?_, ?_, ?_⟩
      · intro h; simp [blinkGreenLoop, hfl2] at h
      · intro h; simp [blinkGreenLoop, hfl2] at h
      · intro b h
        simp only [blinkGreenLoop, hfl2, Bool.not_false, if_true,
          GreenExit.normal.injEq] at h
        exact ⟨h.symm, by simp [blinkGreenLoop, hfl2, revertCount]⟩

theorem simLongLoop_spec (ivl : Nat) (env : Nat → Tick)
    (hfl : ∀ j, (env j).flashing = true) :
    ∀ r i lb bs, revertCount (simLongLoop ivl env r i lb bs) = 1 ∧
      lastAct (simLongLoop ivl env r i lb bs) = some .revert := by
  intro r
  induction r with
  | zero => intro i lb bs; simp [simLongLoop, hfl i, revertCount, lastAct]
  | succ r ih =>
    intro i lb bs
    by_cases hra : (env i).raises = true
    · simp [simLongLoop, hfl i, hra, revertCount, lastAct]
    · by_cases hiv : ivl ≤ i - lb
      · have hk := ih (i + 1) i (!bs)
        have hne : simLongLoop ivl env r (i + 1) i (!bs) ≠ [] :=
          ne_nil_of_lastAct hk.2
        have hstep : simLongLoop ivl env (r + 1) i lb bs =
            (if bs then BlinkAct.pushOff else BlinkAct.pushRed) ::
              (if (env i).pushOk then ([] : List BlinkAct) else [BlinkAct.recover]) ++
              simLongLoop ivl env r (i + 1) i (!bs) := by
          simp [simLongLoop, hfl i, hra, hiv]
        constructor
        · rw [hstep, revertCount_simStep, hk.1]
        · rw [hstep, lastAct_step _ _ _ hne]
          exact hk.2
      · have hk := ih (i + 1) lb bs
        simp only [simLongLoop, hfl i, hra, hiv]
        simpa using hk

/-! ## `update_config` helper lemmas -/

theorem updNumQ_fst_cur (f : Option (Option ℚ)) (minv maxv : Option ℚ) (cur : ℚ) :
    (updNumQ f minv maxv cur).1 = (updNumQ f minv maxv 0).1 := by
  rcases f with _ | _ | v
  · rfl
  · rfl
  · simp only [updNumQ]
    split <;> rfl

theorem updNumI_fst_cur (f : Option (Option Int)) (minv maxv : Option Int) (cur : Int) :
    (updNumI f minv maxv cur).1 = (updNumI f minv maxv 0).1 := by
  rcases f with _ | _ | v
  · rfl
  · rfl
  · simp only [updNumI]
    split <;> rfl

theorem applyNumerics_fst (form : Form) (c : Config) :
    (applyNumerics form c).1 = numericsValid form := by
  simp only [applyNumerics, numericsValid]
  rw [updNumQ_fst_cur form.LONG_PRESS_THRESHOLD,
      updNumQ_fst_cur form.SHORT_FLASH_DURATION,
      updNumQ_fst_cur form.FLASH_INTERVAL,
      updNumI_fst_cur form.FLASH_BRIGHTNESS,
      updNumI_fst_cur form.MAX_RETRIES,
      updNumQ_fst_cur form.RETRY_DELAY,
      updNumQ_fst_cur form.RECONNECT_DELAY,
      updNumQ_fst_cur form.TRANSITION_TIME,
      updNumQ_fst_cur form.REQUEST_TIMEOUT,
      updNumI_fst_cur form.DEFAULT_EFFECT_SPEED,
      updNumI_fst_cur form.DEFAULT_EFFECT_INTENSITY]

/-! ## Further `_send_state` / health helper lemmas -/

theorem sendStateAux_posts_nonempty (cfg : Config) (payload : StatePayload)
    (rs : Nat → HttpResult) :
    ∀ n attempt w, 0 < n →
      (sendStateAux cfg payload rs n attempt w).posts ≠ [] := by
  intro n
  cases n with
  | zero => intro attempt w h; omega
  | succ n =>
    intro attempt w _
    cases hr : rs attempt <;> simp [sendStateAux, hr]

theorem recordFailures_count (cfg : Config) (errs : Nat → String) (h : SystemHealth) :
    ∀ k, (recordFailures cfg errs h k).failed_attempts = h.failed_attempts + k := by
  intro k
  induction k with
  | zero => rfl
  | succ k ih => simp [recordFailures, recordFailure, ih]; omega

theorem recordFailures_status (cfg : Config) (errs : Nat → String) (h : SystemHealth) :
    ∀ k, 1 ≤ k →
      (recordFailures cfg errs h k).status =
        if cfg.MAX_FAILED_ATTEMPTS ≤ h.failed_attempts + k then
          HealthStatus.critical
        else HealthStatus.degraded := by
  intro k hk
  cases k with
  | zero => omega
  | succ k =>
    have hc := recordFailures_count cfg errs h k
    have : h.failed_attempts + k + 1 = h.failed_attempts + (k + 1) := by omega
    simp [recordFailures, recordFailure, hc, this]

/-! # Claim theorems -/

/-- Claim C1, counterexample.  The claim states that *every* blink
sequence invocation — including web-simulated ones ending by pre-emption
— issues the revert-to-default exactly once as its terminal device
action.  In `simulate_long_press`, when another press clears the shared
`flashing` flag before the simulated hold reaches the threshold (here
0.3 s into a 3 s hold at the 10 ms polling cadence), the
`while blinking_red and wled.flashing` loop exits and the function
reaches its `finally` block without ever calling
`revert_to_user_default`: the trace contains zero reverts. -/
theorem C1_revert_counterexample :
    revertCount (simulate_long_press 300 25 envPreempted) = 0 ∧
    simulate_long_press 300 25 envPreempted = [BlinkAct.pushRed] := by
  exact ⟨rfl, rfl⟩

/-- Claim C1, amended.  `blink_green_for_30s` and `blink_red_alert` issue
the revert-to-default exactly once, as the terminal device action, under
*every* environment (normal completion, pre-emption via the `flashing`
flag, in-loop long-press override, and an exception raised in any
iteration).  `simulate_long_press` does so provided it is not pre-empted,
i.e. whenever every loop check observes the `flashing` flag still set;
a pre-empted `simulate_long_press` issues no revert
(`C1_revert_counterexample`). -/
theorem C1_revert_amended :
    (∀ dur thr inFuel env,
      revertCount (blink_green_for_30s dur thr inFuel env) = 1 ∧
      lastAct (blink_green_for_30s dur thr inFuel env) = some BlinkAct.revert) ∧
    (∀ dur env,
      revertCount (blink_red_alert dur env) = 1 ∧
      lastAct (blink_red_alert dur env) = some BlinkAct.revert) ∧
    (∀ thr ivl env, (∀ j, (env j).flashing = true) →
      revertCount (simulate_long_press thr ivl env) = 1 ∧
      lastAct (simulate_long_press thr ivl env) = some BlinkAct.revert) := by
  refine ⟨?_, ?_, ?_⟩
  · intro dur thr inFuel env
    have spec := blinkGreenLoop_spec thr inFuel env dur 0 none true false
    cases hx : (blinkGreenLoop thr inFuel env dur 0 none true false).2 with
    | returned =>
      have hk := spec.1 hx
      constructor
      · simpa [blink_green_for_30s, hx] using hk.1
      · simpa [blink_green_for_30s, hx] using hk.2
    | raised =>
      have hk := spec.2.1 hx
      constructor
      · simp [blink_green_for_30s, hx, revertCount_append, hk, revertCount]
      · simp only [blink_green_for_30s, hx]
        exact lastAct_append_one _ _
    | normal b =>
      have hk := spec.2.2 b hx
      have hb : b = false := hk.1
      constructor
      · simp [blink_green_for_30s, hx, hb, revertCount_append, hk.2, revertCount]
      · simp only [blink_green_for_30s, hx, hb, Bool.false_eq_true, if_false,
          List.append_nil]
        exact lastAct_append_one _ _
  · intro dur env
    constructor
    · simp [blink_red_alert, revertCount_append, blinkRedAlertLoop_count, revertCount]
    · exact lastAct_append_one _ _
  · intro thr ivl env hfl
    exact simLongLoop_spec ivl env hfl thr 0 0 false

/-- Witness for the amended C1 theorem at concrete inputs: a steady
environment satisfies the no-pre-emption hypothesis and each sequence
reverts exactly once. -/
theorem C1_revert_witness :
    (∀ j, (envSteady j).flashing = true) ∧
    revertCount (blink_green_for_30s 10 3 5 envSteady) = 1 ∧
    revertCount (blink_red_alert 10 envSteady) = 1 ∧
    revertCount (simulate_long_press 300 25 envSteady) = 1 :=
  ⟨fun _ => rfl,
   (C1_revert_amended.1 10 3 5 envSteady).1,
   (C1_revert_amended.2.1 10 envSteady).1,
   (C1_revert_amended.2.2 300 25 envSteady (fun _ => rfl)).1⟩

/-- Claim C2, counterexample.  With every attempt failing by a
non-success HTTP status (no transport exception), `_send_state` returns
false after exactly `MAX_RETRIES = 3` attempts but leaves the
`is_connected` flag `true`: only the `RequestException` branch clears
`is_connected`, so the claim's "leaves the connected flag false
afterwards" fails for pure protocol-error runs. -/
theorem C2_retry_counterexample :
    (sendState cfgDefault pBlueSample rsAllHttp wConnected).ok = false ∧
    (sendState cfgDefault pBlueSample rsAllHttp wConnected).posts.length = 3 ∧
    (sendState cfgDefault pBlueSample rsAllHttp wConnected).state.is_connected = true := by
  exact ⟨rfl, rfl, rfl⟩

/-- Claim C2, amended.  When every attempt fails, `_send_state` performs
exactly `MAX_RETRIES` attempts and returns false; the connected flag is
cleared afterwards iff some failing attempt was a transport exception —
a run of pure HTTP-status failures leaves `is_connected` unchanged. -/
theorem C2_retry_amended (cfg : Config) (payload : StatePayload)
    (rs : Nat → HttpResult) (w : WledState)
    (hfail : ∀ i, i < cfg.MAX_RETRIES.toNat → rs i ≠ HttpResult.ok) :
    (sendState cfg payload rs w).ok = false ∧
    (sendState cfg payload rs w).posts.length = cfg.MAX_RETRIES.toNat ∧
    ((∃ i, i < cfg.MAX_RETRIES.toNat ∧ isNetErr (rs i) = true) →
      (sendState cfg payload rs w).state.is_connected = false) ∧
    ((∀ i, i < cfg.MAX_RETRIES.toNat → isNetErr (rs i) = false) →
      (sendState cfg payload rs w).state.is_connected = w.is_connected) := by
  have h0 : ∀ i, i < cfg.MAX_RETRIES.toNat → rs (0 + i) ≠ HttpResult.ok := by
    simpa using hfail
  refine ⟨(sendStateAux_fail cfg payload rs _ 0 w h0).1,
          (sendStateAux_fail cfg payload rs _ 0 w h0).2, ?_, ?_⟩
  · rintro ⟨i, hi, hn⟩
    exact sendStateAux_conn_net cfg payload rs _ 0 w h0 ⟨i, hi, by simpa using hn⟩
  · intro hno
    exact sendStateAux_conn_noNet cfg payload rs _ 0 w h0 (by simpa using hno)

/-- Witness for the amended C2 theorem: three HTTP-500 responses satisfy
the all-fail hypothesis; exactly 3 attempts are made. -/
theorem C2_retry_witness :
    (∀ i, i < cfgDefault.MAX_RETRIES.toNat → rsAllHttp i ≠ HttpResult.ok) ∧
    (sendState cfgDefault pBlueSample rsAllHttp wConnected).posts.length =
      cfgDefault.MAX_RETRIES.toNat :=
  ⟨fun _ _ => by simp [rsAllHttp],
   (C2_retry_amended cfgDefault pBlueSample rsAllHttp wConnected
      (fun _ _ => by simp [rsAllHttp])).2.1⟩

/-- Claim C3, counterexample.  A form submitting a valid
`LONG_PRESS_THRESHOLD = 2` together with an unparseable
`SHORT_FLASH_DURATION` is rejected with "Invalid numeric parameters" —
yet `LONG_PRESS_THRESHOLD` has already been mutated from its previous
value 3 to 2, because each `update_numeric` entry of the `validations`
list applies its `setattr` before `all(validations)` is checked.  So the
update is not atomic: a rejected request can leave some fields changed. -/
theorem C3_update_counterexample :
    (update_config oracleTrue formBadNumeric cfgDefault).outcome =
      UpdateOutcome.badRequest "Invalid numeric parameters" ∧
    cfgDefault.LONG_PRESS_THRESHOLD = 3 ∧
    (update_config oracleTrue formBadNumeric cfgDefault).config.LONG_PRESS_THRESHOLD
      = 2 := by
  exact ⟨rfl, rfl, rfl⟩

/-- Claim C3, amended.  When some submitted numeric field fails
validation (and the IP check passes), `update_config` rejects the
request with HTTP 400 "Invalid numeric parameters", writes nothing to
the INI file and applies no mode to the device, and leaves the string,
mode and effect-index fields untouched — but numeric fields submitted
with *valid* values (and the IP) have already been applied, so the
update is not atomic. -/
theorem C3_update_amended (iv : String → Bool) (form : Form) (cfg : Config)
    (hip : iv (form.WLED_IP.getD cfg.WLED_IP) = true)
    (hbad : numericsValid form = false) :
    (update_config iv form cfg).outcome =
      UpdateOutcome.badRequest "Invalid numeric parameters" ∧
    (update_config iv form cfg).iniWritten = false ∧
    (update_config iv form cfg).appliedMode = none ∧
    (update_config iv form cfg).config.DEFAULT_MODE = cfg.DEFAULT_MODE ∧
    (update_config iv form cfg).config.LOG_FILE = cfg.LOG_FILE ∧
    (update_config iv form cfg).config.WLED_USERNAME = cfg.WLED_USERNAME ∧
    (update_config iv form cfg).config.WLED_PASSWORD = cfg.WLED_PASSWORD ∧
    (update_config iv form cfg).config.DEFAULT_EFFECT_INDEX =
      cfg.DEFAULT_EFFECT_INDEX ∧
    (update_config iv form cfg).config.WLED_IP = form.WLED_IP.getD cfg.WLED_IP := by
  have hfst : (applyNumerics form
      { cfg with WLED_IP := form.WLED_IP.getD cfg.WLED_IP }).1 = false := by
    rw [applyNumerics_fst]; exact hbad
  have hres : update_config iv form cfg =
      ⟨(applyNumerics form { cfg with WLED_IP := form.WLED_IP.getD cfg.WLED_IP }).2,
       UpdateOutcome.badRequest "Invalid numeric parameters", false, none⟩ := by
    simp [update_config, hip, hfst]
  rw [hres]
  exact ⟨rfl, rfl, rfl, rfl, rfl, rfl, rfl, rfl, rfl⟩

/-- Witness for the amended C3 theorem at the concrete rejected form. -/
theorem C3_update_witness :
    oracleTrue (formBadNumeric.WLED_IP.getD cfgDefault.WLED_IP) = true ∧
    numericsValid formBadNumeric = false ∧
    (update_config oracleTrue formBadNumeric cfgDefault).iniWritten = false :=
  ⟨rfl, rfl, (C3_update_amended oracleTrue formBadNumeric cfgDefault rfl rfl).2.1⟩

/-- Claim C4, counterexample.  The claim's invariant says that while
`connected == false` no visual-state push is attempted by `set_color`,
`apply_effect` or `restore_last_state`.  But neither `apply_effect` nor
`restore_last_state` checks `is_connected`: on a disconnected client
that has a recorded last state, `apply_effect` makes one POST and
`restore_last_state` makes `MAX_RETRIES = 3` POSTs. -/
theorem C4_invariant_counterexample :
    wDropped.is_connected = false ∧
    (apply_effect cfgDefault 162 (HttpResult.httpErr 500) wDropped).posts.length = 1 ∧
    (restore_last_state cfgDefault rsAllHttp wDropped).posts.length = 3 := by
  exact ⟨rfl, rfl, rfl⟩

/-- Claim C4, amended.  Only `set_color` refrains from pushing while
disconnected (it returns false with no POST and an unchanged state);
`apply_effect` always makes exactly one POST and `restore_last_state`
(with a recorded state and `MAX_RETRIES ≥ 1`) always POSTs, regardless
of `is_connected`.  The `lastAppliedState` half of the claim holds: no
modelled client operation ever clears `_last_state` back to none, and
`_send_state` either leaves it unchanged or — exactly on a successful
push — replaces it with the acknowledged payload. -/
theorem C4_invariant_amended :
    (∀ cfg r g b bri rs w, w.is_connected = false →
      set_color cfg r g b bri rs w = ⟨false, w, []⟩) ∧
    (∀ cfg idx resp w, (apply_effect cfg idx resp w).posts.length = 1) ∧
    (∀ cfg rs w st, w.last_state = some st → 1 ≤ cfg.MAX_RETRIES →
      (restore_last_state cfg rs w).posts ≠ []) ∧
    (∀ cfg op w, w.last_state.isSome = true →
      ((runOp cfg op w).last_state).isSome = true) ∧
    (∀ cfg payload rs w,
      (sendState cfg payload rs w).state.last_state = w.last_state ∨
      ((sendState cfg payload rs w).ok = true ∧
        (sendState cfg payload rs w).state.last_state = some payload)) := by
  refine ⟨?_, ?_, ?_, ?_, ?_⟩
  · intro cfg r g b bri rs w h
    exact set_color_guard cfg r g b bri rs w (Or.inl h)
  · intro cfg idx resp w
    cases resp <;> rfl
  · intro cfg rs w st hst hmr
    simp only [restore_last_state, hst]
    exact sendStateAux_posts_nonempty cfg st rs _ 0 w (by omega)
  · exact runOp_last_isSome
  · intro cfg payload rs w
    exact sendStateAux_last_state cfg payload rs _ 0 w

/-- Witness for the amended C4 theorem at concrete inputs: the
disconnected guard of `set_color` and the restore push both behave as
stated. -/
theorem C4_invariant_witness :
    wDropped.is_connected = false ∧
    wDropped.last_state = some pBlueSample ∧
    (1 : Int) ≤ cfgDefault.MAX_RETRIES ∧
    set_color cfgDefault 255 0 0 255 rsAllOk wDropped = ⟨false, wDropped, []⟩ ∧
    (restore_last_state cfgDefault rsAllHttp wDropped).posts ≠ [] :=
  ⟨rfl, rfl, by norm_num [cfgDefault],
   C4_invariant_amended.1 cfgDefault 255 0 0 255 rsAllOk wDropped rfl,
   C4_invariant_amended.2.2.1 cfgDefault rsAllHttp wDropped pBlueSample rfl
     (by norm_num [cfgDefault])⟩

/-- Claim C5, confirmed.  In `wait_for_connection` the computed delays
`min(RECONNECT_DELAY * 2^(attempt-1), 60)` are non-decreasing and capped
at 60 s; below the cap the `attempt`-th delay is exactly
`RECONNECT_DELAY * 2^(attempt-1)`; and the slept wait
(`delay + random() * (delay * 0.1)` with `random() = t ∈ [0, 1)`) lies in
the closed interval `[delay, delay * 1.1]` stated by the spec. -/
theorem C5_backoff (cfg : Config) (hb : 0 ≤ cfg.RECONNECT_DELAY) :
    (∀ a, 1 ≤ a → reconnectDelay cfg a ≤ reconnectDelay cfg (a + 1)) ∧
    (∀ a, reconnectDelay cfg a ≤ 60) ∧
    (∀ a, cfg.RECONNECT_DELAY * 2 ^ (a - 1) ≤ 60 →
      reconnectDelay cfg a = cfg.RECONNECT_DELAY * 2 ^ (a - 1)) ∧
    (∀ a t, 0 ≤ t → t < 1 → cfg.RECONNECT_DELAY * 2 ^ (a - 1) ≤ 60 →
      cfg.RECONNECT_DELAY * 2 ^ (a - 1) ≤ sleptWait cfg a t ∧
      sleptWait cfg a t ≤ cfg.RECONNECT_DELAY * 2 ^ (a - 1) * (11 / 10)) := by
  have hpow : ∀ a : Nat, (0 : ℚ) ≤ cfg.RECONNECT_DELAY * 2 ^ (a - 1) := by
    intro a
    exact mul_nonneg hb (by positivity)
  refine ⟨?_, ?_, ?_, ?_⟩
  · intro a ha
    apply min_le_min _ le_rfl
    apply mul_le_mul_of_nonneg_left _ hb
    apply pow_le_pow_right₀ (by norm_num)
    omega
  · intro a
    exact min_le_right _ _
  · intro a hcap
    exact min_eq_left hcap
  · intro a t ht0 ht1 hcap
    have hd := min_eq_left hcap
    simp only [sleptWait, reconnectDelay]
    rw [hd]
    constructor
    · have : 0 ≤ t * (cfg.RECONNECT_DELAY * 2 ^ (a - 1) * (1 / 10)) := by
        apply mul_nonneg ht0
        apply mul_nonneg (hpow a)
        norm_num
      linarith
    · have h1 : t * (cfg.RECONNECT_DELAY * 2 ^ (a - 1) * (1 / 10)) ≤
          1 * (cfg.RECONNECT_DELAY * 2 ^ (a - 1) * (1 / 10)) := by
        apply mul_le_mul_of_nonneg_right (le_of_lt ht1)
        apply mul_nonneg (hpow a)
        norm_num
      nlinarith [hpow a]

/-- Witness for C5 at the default configuration: base delay 5 s, second
attempt, jitter draw 1/2 — the slept wait lies in `[10, 11]`. -/
theorem C5_backoff_witness :
    (0 : ℚ) ≤ cfgDefault.RECONNECT_DELAY ∧
    reconnectDelay cfgDefault 2 = cfgDefault.RECONNECT_DELAY * 2 ^ (2 - 1) ∧
    cfgDefault.RECONNECT_DELAY * 2 ^ (2 - 1) ≤ sleptWait cfgDefault 2 (1 / 2) := by
  have hb : (0 : ℚ) ≤ cfgDefault.RECONNECT_DELAY := by norm_num [cfgDefault]
  have hcap : cfgDefault.RECONNECT_DELAY * 2 ^ (2 - 1) ≤ 60 := by
    norm_num [cfgDefault]
  exact ⟨hb, (C5_backoff cfgDefault hb).2.2.1 2 hcap,
    ((C5_backoff cfgDefault hb).2.2.2 2 (1 / 2) (by norm_num) (by norm_num) hcap).1⟩

/-- Claim C6, confirmed.  Starting from the healthy state
(`failed_attempts = 0`), each of the first `MAX_FAILED_ATTEMPTS - 1`
consecutive `record_failure` calls leaves status `degraded`, the
`MAX_FAILED_ATTEMPTS`-th call is the first to make it `critical`, and a
single `record_success` afterwards resets `failed_attempts` to 0 and
status to `healthy` regardless of the prior count. -/
theorem C6_health_threshold (cfg : Config) (errs : Nat → String) (h : SystemHealth)
    (hst : h.status = HealthStatus.healthy) (h0 : h.failed_attempts = 0)
    (hmax : 1 ≤ cfg.MAX_FAILED_ATTEMPTS) :
    (∀ k, 1 ≤ k → k < cfg.MAX_FAILED_ATTEMPTS →
      (recordFailures cfg errs h k).status = HealthStatus.degraded) ∧
    (recordFailures cfg errs h cfg.MAX_FAILED_ATTEMPTS).status =
      HealthStatus.critical ∧
    (∀ k, k < cfg.MAX_FAILED_ATTEMPTS →
      (recordFailures cfg errs h k).status ≠ HealthStatus.critical) ∧
    (∀ k, (recordSuccess (recordFailures cfg errs h k)).failed_attempts = 0 ∧
      (recordSuccess (recordFailures cfg errs h k)).status = HealthStatus.healthy) := by
  refine ⟨?_, ?_, ?_, ?_⟩
  · intro k hk1 hk2
    rw [recordFailures_status cfg errs h k hk1, h0]
    simp only [Nat.zero_add]
    rw [if_neg (by omega)]
  · rw [recordFailures_status cfg errs h cfg.MAX_FAILED_ATTEMPTS hmax, h0]
    simp only [Nat.zero_add]
    rw [if_pos le_rfl]
  · intro k hk
    cases Nat.eq_zero_or_pos k with
    | inl hz =>
      subst hz
      rw [recordFailures, hst]
      simp
    | inr hpos =>
      rw [recordFailures_status cfg errs h k hpos, h0]
      simp only [Nat.zero_add]
      rw [if_neg (by omega)]
      simp
  · intro k
    exact ⟨rfl, rfl⟩

/-- Witness for C6 at the default configuration
(`MAX_FAILED_ATTEMPTS = 5`) from a freshly healthy tracker. -/
theorem C6_health_witness :
    (recordSuccess healthInit).status = HealthStatus.healthy ∧
    (recordSuccess healthInit).failed_attempts = 0 ∧
    (recordFailures cfgDefault (fun _ => "boom") (recordSuccess healthInit)
      cfgDefault.MAX_FAILED_ATTEMPTS).status = HealthStatus.critical :=
  ⟨rfl, rfl,
   (C6_health_threshold cfgDefault (fun _ => "boom") (recordSuccess healthInit)
      rfl rfl (by norm_num [cfgDefault])).2.1⟩

/-- Claim C7, confirmed.  `restore_last_state` returns false without any
POST when no state was ever recorded; two consecutive calls with no
intervening successful push POST byte-identical payloads (every attempt
of both calls sends exactly the recorded payload, which a successful
restore rewrites to the same value); and the boolean outcome of the
underlying `_send_state` depends only on the response stream, never on
the client state or payload content. -/
theorem C7_restore_idempotent :
    (∀ cfg rs w, w.last_state = none →
      restore_last_state cfg rs w = ⟨false, w, []⟩) ∧
    (∀ cfg rs1 rs2 w st, w.last_state = some st →
      (∀ q ∈ (restore_last_state cfg rs1 w).posts, q = st) ∧
      (restore_last_state cfg rs1 w).state.last_state = some st ∧
      (∀ q ∈ (restore_last_state cfg rs2
          (restore_last_state cfg rs1 w).state).posts, q = st)) ∧
    (∀ cfg payload rs w w',
      (sendState cfg payload rs w).ok = (sendState cfg payload rs w').ok) := by
  refine ⟨?_, ?_, ?_⟩
  · intro cfg rs w h
    simp [restore_last_state, h]
  · intro cfg rs1 rs2 w st hst
    have hls : (restore_last_state cfg rs1 w).state.last_state = some st := by
      simp only [restore_last_state, hst]
      rcases sendStateAux_last_state cfg st rs1 cfg.MAX_RETRIES.toNat 0 w with h' | h'
      · rw [sendState, h', hst]
      · rw [sendState, h'.2]
    refine ⟨?_, hls, ?_⟩
    · intro q hq
      simp only [restore_last_state, hst] at hq
      exact sendStateAux_posts_all cfg st rs1 cfg.MAX_RETRIES.toNat 0 w q hq
    · intro q hq
      rw [restore_some cfg rs2 _ st hls] at hq
      exact sendStateAux_posts_all cfg st rs2 cfg.MAX_RETRIES.toNat 0 _ q hq
  · intro cfg payload rs w w'
    exact sendStateAux_ok_indep cfg payload rs cfg.MAX_RETRIES.toNat 0 w w'

/-- Witness for C7 at concrete inputs: the empty-state no-op and the
identical payloads of two consecutive restores. -/
theorem C7_restore_witness :
    initialState.last_state = none ∧
    restore_last_state cfgDefault rsAllOk initialState =
      ⟨false, initialState, []⟩ ∧
    wWithLast.last_state = some pBlueSample ∧
    (∀ q ∈ (restore_last_state cfgDefault rsAllHttp wWithLast).posts,
      q = pBlueSample) :=
  ⟨rfl, C7_restore_idempotent.1 cfgDefault rsAllOk initialState rfl, rfl,
   (C7_restore_idempotent.2.1 cfgDefault rsAllHttp rsAllHttp wWithLast
      pBlueSample rfl).1⟩

/-- Claim C8, confirmed.  `auto_recover` is a pure no-op returning false
(no info request, no POST) when already connected; when disconnected it
returns true exactly when `wait_for_connection` succeeds and the
subsequent `restore_last_state` succeeds, and false in every other case
— in particular when reconnection succeeds but no last state was ever
recorded. -/
theorem C8_auto_recover (cfg : Config) (s : Nat → InfoResult) (fuel : Nat)
    (rs : Nat → HttpResult) (w : WledState) :
    (w.is_connected = true →
      auto_recover cfg s fuel rs w = ⟨false, w, [], 0⟩) ∧
    (w.is_connected = false →
      ((auto_recover cfg s fuel rs w).ok = true ↔
        (wait_for_connection cfg s fuel w).ok = true ∧
        (restore_last_state cfg rs (wait_for_connection cfg s fuel w).state).ok
          = true)) ∧
    (w.is_connected = false → (wait_for_connection cfg s fuel w).ok = true →
      (wait_for_connection cfg s fuel w).state.last_state = none →
      (auto_recover cfg s fuel rs w).ok = false) := by
  refine ⟨?_, ?_, ?_⟩
  · intro h
    simp [auto_recover, h]
  · intro h
    by_cases hok : (wait_for_connection cfg s fuel w).ok = true
    · simp [auto_recover, h, hok]
    · simp [auto_recover, h, hok]
  · intro h hok hnone
    simp [auto_recover, h, hok, restore_none cfg rs _ hnone]

/-- Witness for C8: a connected client is untouched, and a disconnected
client facing an unreachable device recovers nothing. -/
theorem C8_auto_recover_witness :
    wConnected.is_connected = true ∧
    auto_recover cfgDefault infoAllNet 3 rsAllOk wConnected =
      ⟨false, wConnected, [], 0⟩ ∧
    wDropped.is_connected = false ∧
    ((auto_recover cfgDefault infoAllNet 3 rsAllOk wDropped).ok = true ↔
      (wait_for_connection cfgDefault infoAllNet 3 wDropped).ok = true ∧
      (restore_last_state cfgDefault rsAllOk
        (wait_for_connection cfgDefault infoAllNet 3 wDropped).state).ok = true) :=
  ⟨rfl,
   (C8_auto_recover cfgDefault infoAllNet 3 rsAllOk wConnected).1 rfl,
   rfl,
   (C8_auto_recover cfgDefault infoAllNet 3 rsAllOk wDropped).2.1 rfl⟩

/-- Claim C9, counterexample.  On a non-success HTTP status
`apply_effect` returns false and records the failure, but does *not*
clear the connected flag: only the `RequestException` branch sets
`is_connected = False`, so the claim's "clears the connected flag
immediately on every failure" is wrong for protocol errors. -/
theorem C9_effect_counterexample :
    wConnected.is_connected = true ∧
    (apply_effect cfgDefault 162 (HttpResult.httpErr 503) wConnected).ok = false ∧
    (apply_effect cfgDefault 162 (HttpResult.httpErr 503) wConnected).state.is_connected
      = true := by
  exact ⟨rfl, rfl, rfl⟩

/-- Claim C9, amended.  `apply_effect` makes exactly one HTTP attempt
(no retry loop); on every failure it returns false and records the
failure (incrementing the failure count); the connected flag is cleared
immediately on a transport error but left unchanged on a non-success
HTTP status. -/
theorem C9_effect_amended (cfg : Config) (idx : Int) (resp : HttpResult)
    (w : WledState) :
    (apply_effect cfg idx resp w).posts.length = 1 ∧
    (resp ≠ HttpResult.ok → (apply_effect cfg idx resp w).ok = false ∧
      (apply_effect cfg idx resp w).state.health.failed_attempts =
        w.health.failed_attempts + 1) ∧
    (∀ c, resp = HttpResult.httpErr c →
      (apply_effect cfg idx resp w).state.is_connected = w.is_connected) ∧
    (∀ e, resp = HttpResult.netErr e →
      (apply_effect cfg idx resp w).state.is_connected = false) := by
  refine ⟨?_, ?_, ?_, ?_⟩
  · cases resp <;> rfl
  · intro h
    cases resp with
    | ok => exact absurd rfl h
    | httpErr c => exact ⟨rfl, rfl⟩
    | netErr e => exact ⟨rfl, rfl⟩
  · rintro c rfl
    rfl
  · rintro e rfl
    rfl

/-- Witness for the amended C9 theorem at a concrete protocol failure. -/
theorem C9_effect_witness :
    HttpResult.httpErr 503 ≠ HttpResult.ok ∧
    (apply_effect cfgDefault 162 (HttpResult.httpErr 503) wConnected).posts.length
      = 1 ∧
    (apply_effect cfgDefault 162 (HttpResult.httpErr 503) wConnected).ok = false :=
  ⟨by simp,
   (C9_effect_amended cfgDefault 162 (HttpResult.httpErr 503) wConnected).1,
   ((C9_effect_amended cfgDefault 162 (HttpResult.httpErr 503) wConnected).2.1
      (by simp)).1⟩

/-- Claim C10, confirmed.  `set_color` (both the RGB and the RGBW
variant) returns false immediately — no POST, no retry, no health
record, no state change — whenever the client is disconnected or
`led_count = 0`; and since a successful `initialize` is the only
modelled operation that changes `led_count`, every run of client
operations from the freshly constructed state that contains no
successful `initialize` keeps `led_count = 0`, so every solid-colour
push in such a run is a silent no-op. -/
theorem C10_set_color_noop :
    (∀ cfg r g b bri rs w, w.is_connected = false ∨ w.led_count = 0 →
      set_color cfg r g b bri rs w = ⟨false, w, []⟩) ∧
    (∀ cfg r g b wch bri rs w, w.is_connected = false ∨ w.led_count = 0 →
      set_color_rgbw cfg r g b wch bri rs w = ⟨false, w, []⟩) ∧
    (∀ cfg ops, noSuccInitRun cfg ops initialState = true →
      (runOps cfg ops initialState).led_count = 0 ∧
      ∀ r g b bri rs,
        set_color cfg r g b bri rs (runOps cfg ops initialState) =
          ⟨false, runOps cfg ops initialState, []⟩) := by
  refine ⟨?_, ?_, ?_⟩
  · intro cfg r g b bri rs w h
    exact set_color_guard cfg r g b bri rs w h
  · intro cfg r g b wch bri rs w h
    exact set_color_rgbw_guard cfg r g b wch bri rs w h
  · intro cfg ops h
    have hled : (runOps cfg ops initialState).led_count = 0 := by
      rw [runOps_led cfg ops initialState h]; rfl
    exact ⟨hled, fun r g b bri rs =>
      set_color_guard cfg r g b bri rs _ (Or.inr hled)⟩

/-- Witness for C10: a run of failing operations from the initial state
(an effect POST failing with HTTP 500, a restore attempt against a
permanently failing transport, a failed `initialize`) contains no
successful `initialize`, keeps `led_count = 0`, and leaves `set_color` a
no-op. -/
theorem C10_set_color_witness :
    noSuccInitRun cfgDefault
      [ClientOp.opApplyEffect 162 (HttpResult.httpErr 500),
       ClientOp.opRestoreLast rsAllHttp,
       ClientOp.opInit (InfoResult.netErr "unreachable")]
      initialState = true ∧
    (runOps cfgDefault
      [ClientOp.opApplyEffect 162 (HttpResult.httpErr 500),
       ClientOp.opRestoreLast rsAllHttp,
       ClientOp.opInit (InfoResult.netErr "unreachable")]
      initialState).led_count = 0 :=
  ⟨rfl,
   (C10_set_color_noop.2.2 cfgDefault
      [ClientOp.opApplyEffect 162 (HttpResult.httpErr 500),
       ClientOp.opRestoreLast rsAllHttp,
       ClientOp.opInit (InfoResult.netErr "unreachable")] rfl).1⟩
